import Mathlib

/-!
Verification of the cursored-pagination engine and the user-lookup request
builders of the `twitter-rs` crate (module `src/user/mod.rs`).

Pure request-building code (`lookup`, `relation`, `relation_lookup`, the
`CursorIter` constructors) is embedded directly from the source.  The
`CursorIter`/`UserSearch` state machines, the `links` endpoint registry and
the `common` helpers (`add_param`, `add_name_param`) live in modules that
are part of the crate but outside `src/user/mod.rs`; those are modelled
from the spec, as marked in their doc comments.
-/

namespace TwitterRs

/-- Request parameters.  The Rust code builds a `HashMap<&str, String>`; every
call site inserts pairwise-distinct keys, so an ordered association list is a
faithful rendering (insertion never overwrites). -/
abbrev Params := List (String × String)

/-- Modelled from the spec: `add_param` (crate module `common`, not under
`src/user/mod.rs`) inserts one key-value pair into the request parameter map. -/
def add_param (params : Params) (key value : String) : Params :=
  params ++ [(key, value)]

/-- Whether the parameter map carries the given key. -/
def hasParam (params : Params) (key : String) : Bool :=
  params.any (fun kv => kv.1 == key)

/-- The value the parameter map carries for the given key, if any. -/
def getParam (params : Params) (key : String) : Option String :=
  (params.find? (fun kv => kv.1 == key)).map (fun kv => kv.2)

/-- The tagged account selector `UserID::ID(i64) | UserID::ScreenName(&str)`
(declared in `user/structs.rs`; both variants are pattern-matched throughout
`src/user/mod.rs`). -/
inductive UserID where
  | ID : Int → UserID
  | ScreenName : String → UserID
deriving DecidableEq

/-- Modelled from the spec: `add_name_param` (crate module `common`, not under
`src/user/mod.rs`) is the single conversion point from the account selector
into request parameters: a numeric selector adds only the `user_id` parameter
and a screen-name selector only the `screen_name` parameter. -/
def add_name_param (params : Params) (acct : UserID) : Params :=
  match acct with
  | .ID id => add_param params "user_id" (toString id)
  | .ScreenName n => add_param params "screen_name" n

/-- The parameters built by `show` (src/user/mod.rs:97-106): a single
`add_name_param` call on an empty map. -/
def show_params (acct : UserID) : Params :=
  add_name_param [] acct

/-- The parameters built by `relation` (src/user/mod.rs:109-127): the `from`
selector maps to `source_id`/`source_screen_name` and the `to` selector to
`target_id`/`target_screen_name`. -/
def relation_params (source target : UserID) : Params :=
  let params : Params := []
  let params :=
    match source with
    | .ID id => add_param params "source_id" (toString id)
    | .ScreenName n => add_param params "source_screen_name" n
  match target with
  | .ID id => add_param params "target_id" (toString id)
  | .ScreenName n => add_param params "target_screen_name" n

/-- The `user_id` partition of a mixed account list: the numeric IDs rendered
to strings, in input order (the `filter_map` in `lookup`/`relation_lookup`). -/
def idStrings (accts : List UserID) : List String :=
  accts.filterMap (fun x =>
    match x with
    | .ID id => some (toString id)
    | _ => none)

/-- The `screen_name` partition of a mixed account list: the screen names, in
input order (the `filter_map` in `lookup`/`relation_lookup`). -/
def nameStrings (accts : List UserID) : List String :=
  accts.filterMap (fun x =>
    match x with
    | .ScreenName n => some n
    | _ => none)

/-- The parameters built by `lookup` (src/user/mod.rs:69-94): both the
comma-joined `user_id` partition and the comma-joined `screen_name` partition
are added unconditionally. -/
def lookup_params (accts : List UserID) : Params :=
  let id_param := String.intercalate "," (idStrings accts)
  let name_param := String.intercalate "," (nameStrings accts)
  add_param (add_param [] "user_id" id_param) "screen_name" name_param

/-- The parameters built by `relation_lookup` (src/user/mod.rs:262-287); the
parameter-building body is identical to that of `lookup`. -/
def relation_lookup_params (accts : List UserID) : Params :=
  let id_param := String.intercalate "," (idStrings accts)
  let name_param := String.intercalate "," (nameStrings accts)
  add_param (add_param [] "user_id" id_param) "screen_name" name_param

/-- Modelled from the spec: one page of a cursored listing — an ordered item
batch plus the two opaque cursor tokens (signed 64-bit on the wire; a
`next_cursor` of 0 signals end-of-list). -/
structure Page (T : Type) where
  items : List T
  previous_cursor : Int
  next_cursor : Int
deriving DecidableEq

/-- Modelled from the spec: the `CursorIter` pagination state (crate module
`cursor`, not under `src/user/mod.rs`): endpoint link, optional account
selector, optional page-size hint, current cursor, front-to-back item buffer,
and whether the first fetch has been issued.  Auth tokens are external
collaborators and carry no state the engine reads, so they are omitted. -/
structure CursorIter (T : Type) where
  link : String
  acct : Option UserID
  page_size : Option Nat
  current_cursor : Int
  buffered_items : List T
  started : Bool
deriving DecidableEq

/-- `CursorIter::new` as called throughout `src/user/mod.rs`: not yet started,
cursor at the start-of-list sentinel 0, empty buffer. -/
def CursorIter.new (T : Type) (link : String) (acct : Option UserID)
    (page_size : Option Nat) : CursorIter T :=
  { link := link, acct := acct, page_size := page_size,
    current_cursor := 0, buffered_items := [], started := false }

/-- The `Done` state of the spec's machine: a prior fetch returned
`next_cursor == 0` and the buffer has been drained. -/
def CursorIter.isDone {T : Type} (it : CursorIter T) : Bool :=
  it.started && it.current_cursor == 0 && it.buffered_items.isEmpty

/-- Modelled from the spec: the request parameters one `PageFetcher` call
builds from the iterator state — the account selector (exactly one of
`user_id`/`screen_name`, or absent when the listing is self-referential), the
optional page-size hint, and the cursor, which is rendered as the absence of a
cursor parameter on the very first request. -/
def CursorIter.fetch_params {T : Type} (it : CursorIter T) : Params :=
  let params : Params :=
    match it.acct with
    | some a => add_name_param [] a
    | none => []
  let params :=
    match it.page_size with
    | some n => add_param params "count" (toString n)
    | none => params
  if it.started then add_param params "cursor" (toString it.current_cursor)
  else params

/-- The outcome of one `produce_next()` call: a buffered or freshly fetched
item, the exhaustion signal, a surfaced fetch error, or `noResponse` — a
modelling artifact marking that the scripted server gave no further response
mid-call (outside the behaviours the spec describes). -/
inductive Output (T E : Type) where
  | item : T → Output T E
  | exhausted : Output T E
  | fetchErr : E → Output T E
  | noResponse : Output T E
deriving DecidableEq

/-- Equality of scripted fetch outcomes is decidable. -/
instance exceptDecidableEq {E A : Type} [DecidableEq E] [DecidableEq A] :
    DecidableEq (Except E A)
  | .error a, .error b =>
    if h : a = b then .isTrue (congrArg Except.error h)
    else .isFalse (fun hc => h (Except.error.inj hc))
  | .error _, .ok _ => .isFalse (fun hc => Except.noConfusion hc)
  | .ok _, .error _ => .isFalse (fun hc => Except.noConfusion hc)
  | .ok a, .ok b =>
    if h : a = b then .isTrue (congrArg Except.ok h)
    else .isFalse (fun hc => h (Except.ok.inj hc))

/-- The result of one `produce_next()` call: the outcome, the new iterator
state, the unconsumed remainder of the server script, and the parameter maps
of the fetch requests the call issued, in order. -/
structure StepResult (T E : Type) where
  out : Output T E
  state : CursorIter T
  rest : List (Except E (Page T))
  reqs : List Params
deriving DecidableEq

/-- Modelled from the spec: the fetch phase of one `produce_next()` call,
entered with a drained buffer outside the `Done` state.  One fetch is issued
with `(current_cursor, page_size)`; on failure the error surfaces and the
state is untouched; on success the buffer and cursor are replaced, and an
empty page with a non-zero `next_cursor` transparently fetches again within
the same call. -/
def fetch_loop {T E : Type} : CursorIter T → List (Except E (Page T)) → StepResult T E
  | it, [] => ⟨.noResponse, it, [], []⟩
  | it, .error e :: s => ⟨.fetchErr e, it, s, [it.fetch_params]⟩
  | it, .ok ⟨x :: rest, _, nc⟩ :: s =>
    ⟨.item x,
     { it with buffered_items := rest, current_cursor := nc, started := true },
     s, [it.fetch_params]⟩
  | it, .ok ⟨[], _, nc⟩ :: s =>
    if nc == 0 then
      ⟨.exhausted,
       { it with buffered_items := [], current_cursor := 0, started := true },
       s, [it.fetch_params]⟩
    else
      let r := fetch_loop
        { it with buffered_items := [], current_cursor := nc, started := true } s
      ⟨r.out, r.state, r.rest, it.fetch_params :: r.reqs⟩

/-- Modelled from the spec: one `produce_next()` call of the `CursorIter`
state machine, driven against a script of server responses that the fetches
consume in order.  A non-empty buffer pops its front item with no network
access; an empty buffer in the `Done` state signals exhaustion with no fetch;
otherwise the call enters the fetch phase. -/
def produce_next {T E : Type} (it : CursorIter T)
    (script : List (Except E (Page T))) : StepResult T E :=
  match it.buffered_items with
  | x :: rest => ⟨.item x, { it with buffered_items := rest }, script, []⟩
  | [] =>
    if it.started && it.current_cursor == 0 then
      ⟨.exhausted, it, script, []⟩
    else
      fetch_loop it script

/-- The result of driving `produce_next` several times: all outcomes in
order, the final state, the unconsumed script, and all requests issued. -/
structure RunResult (T E : Type) where
  outs : List (Output T E)
  state : CursorIter T
  rest : List (Except E (Page T))
  reqs : List Params
deriving DecidableEq

/-- Drive `produce_next` for `n` consecutive calls, collecting the outcomes
and the requests issued. -/
def collect {T E : Type} : CursorIter T → List (Except E (Page T)) → Nat → RunResult T E
  | it, script, 0 => ⟨[], it, script, []⟩
  | it, script, n + 1 =>
    let r := produce_next it script
    let c := collect r.state r.rest n
    ⟨r.out :: c.outs, c.state, c.rest, r.reqs ++ c.reqs⟩

/-- The concatenation of all pages' item batches, in server order. -/
def pagesItems {T : Type} : List (Page T) → List T
  | [] => []
  | p :: ps => p.items ++ pagesItems ps

/-- A well-formed server script: at least one page, every page before the last
carries a non-zero continuation cursor, and the last page's `next_cursor` is 0
(the end-of-list signal eventually arrives). -/
def wfPages {T : Type} : List (Page T) → Bool
  | [] => false
  | [p] => p.next_cursor == 0
  | p :: q :: ps => p.next_cursor != 0 && wfPages (q :: ps)

/-- The configuration error of the spec: the page size may not change once
traversal has started. -/
inductive ConfigError where
  | configuration_rejected
deriving DecidableEq

/-- Modelled from the spec: `with_page_size` on a `CursorIter` sets the hint
before the first fetch and rejects the change (surfacing a configuration
error, the iterator untouched and no network access attempted — the operation
consults no server script at all) once `started` is true. -/
def CursorIter.with_page_size {T : Type} (it : CursorIter T) (n : Nat) :
    Except ConfigError (CursorIter T) :=
  if it.started then .error .configuration_rejected
  else .ok { it with page_size := some n }

/-- Modelled from the spec: the `UserSearch` offset-paginated iterator state
(crate module not under `src/user/mod.rs`): query, 1-based page number,
page-size, item buffer, whether the last fetch had results, and whether the
first fetch has been issued. -/
structure UserSearch (T : Type) where
  query : String
  page_number : Nat
  page_size : Nat
  buffered_items : List T
  last_page_had_results : Bool
  started : Bool
deriving DecidableEq

/-- Modelled from the spec: a fresh search iterator starts at page number 1
with an empty buffer; the page-size hint starts at a fixed default (the spec
fixes only that the field exists and starts mutable). -/
def UserSearch.new (T : Type) (query : String) : UserSearch T :=
  { query := query, page_number := 1, page_size := 10, buffered_items := [],
    last_page_had_results := true, started := false }

/-- `search` (src/user/mod.rs:130-134) hands the query to `UserSearch::new`. -/
def search (T : Type) (query : String) : UserSearch T :=
  UserSearch.new T query

/-- The terminal state of the search machine: a prior fetch returned zero
items. -/
def UserSearch.isTerminal {T : Type} (st : UserSearch T) : Bool :=
  st.started && !st.last_page_had_results

/-- The result of one search `produce_next()` call; requests are
`(page_number, page_size)` pairs. -/
structure SearchStep (T E : Type) where
  out : Output T E
  state : UserSearch T
  rest : List (Except E (List T))
  reqs : List (Nat × Nat)
deriving DecidableEq

/-- Modelled from the spec: one `produce_next()` call of the `UserSearch`
machine.  Buffering as in the cursor machine, but the fetch request carries
`(page_number, page_size)`, `page_number` advances by 1 after each non-empty
fetch, and a fetch returning zero items is the terminal condition — no cursor
is involved. -/
def search_next {T E : Type} : UserSearch T → List (Except E (List T)) → SearchStep T E
  | st, script =>
    match st.buffered_items with
    | x :: rest => ⟨.item x, { st with buffered_items := rest }, script, []⟩
    | [] =>
      if st.started && !st.last_page_had_results then
        ⟨.exhausted, st, script, []⟩
      else
        match script with
        | [] => ⟨.noResponse, st, [], []⟩
        | .error e :: s => ⟨.fetchErr e, st, s, [(st.page_number, st.page_size)]⟩
        | .ok [] :: s =>
          ⟨.exhausted,
           { st with started := true, last_page_had_results := false }, s,
           [(st.page_number, st.page_size)]⟩
        | .ok (x :: rest) :: s =>
          ⟨.item x,
           { st with buffered_items := rest, page_number := st.page_number + 1,
                     started := true, last_page_had_results := true },
           s, [(st.page_number, st.page_size)]⟩

/-- Modelled from the spec: `with_page_size` on a `UserSearch` obeys the same
immutable-after-start rule as on a `CursorIter`. -/
def UserSearch.with_page_size {T : Type} (st : UserSearch T) (n : Nat) :
    Except ConfigError (UserSearch T) :=
  if st.started then .error .configuration_rejected
  else .ok { st with page_size := n }

/-- Modelled from the spec: the endpoint registry (crate module `links`, not
under `src/user/mod.rs`) supplies a fixed URL per listing kind. -/
def FRIENDS_LIST : String := "friends/list"

/-- Endpoint URL for the friends-IDs listing. -/
def FRIENDS_IDS : String := "friends/ids"

/-- Endpoint URL for the followers listing. -/
def FOLLOWERS_LIST : String := "followers/list"

/-- Endpoint URL for the followers-IDs listing. -/
def FOLLOWERS_IDS : String := "followers/ids"

/-- Endpoint URL for the blocks listing. -/
def BLOCKS_LIST : String := "blocks/list"

/-- Endpoint URL for the blocks-IDs listing. -/
def BLOCKS_IDS : String := "blocks/ids"

/-- Endpoint URL for the mutes listing. -/
def MUTES_LIST : String := "mutes/users/list"

/-- Endpoint URL for the mutes-IDs listing. -/
def MUTES_IDS : String := "mutes/users/ids"

/-- Endpoint URL for the incoming follow requests listing. -/
def FRIENDSHIPS_INCOMING : String := "friendships/incoming"

/-- Endpoint URL for the outgoing follow requests listing. -/
def FRIENDSHIPS_OUTGOING : String := "friendships/outgoing"

/-- `friends_of` (src/user/mod.rs:140-144): selector `Some(acct)`, page-size
hint `Some(20)`. -/
def friends_of (T : Type) (acct : UserID) : CursorIter T :=
  CursorIter.new T FRIENDS_LIST (some acct) (some 20)

/-- `friends_ids` (src/user/mod.rs:155-159): selector `Some(acct)`, page-size
hint `Some(500)`. -/
def friends_ids (T : Type) (acct : UserID) : CursorIter T :=
  CursorIter.new T FRIENDS_IDS (some acct) (some 500)

/-- `followers_of` (src/user/mod.rs:165-169): selector `Some(acct)`, page-size
hint `Some(20)`. -/
def followers_of (T : Type) (acct : UserID) : CursorIter T :=
  CursorIter.new T FOLLOWERS_LIST (some acct) (some 20)

/-- `followers_ids` (src/user/mod.rs:179-183): selector `Some(acct)`,
page-size hint `Some(500)`. -/
def followers_ids (T : Type) (acct : UserID) : CursorIter T :=
  CursorIter.new T FOLLOWERS_IDS (some acct) (some 500)

/-- `blocks` (src/user/mod.rs:191-193): selector `None`, page-size `None`. -/
def blocks (T : Type) : CursorIter T :=
  CursorIter.new T BLOCKS_LIST none none

/-- `blocks_ids` (src/user/mod.rs:206-208): selector `None`, page-size
`None`. -/
def blocks_ids (T : Type) : CursorIter T :=
  CursorIter.new T BLOCKS_IDS none none

/-- `mutes` (src/user/mod.rs:216-218): selector `None`, page-size `None`. -/
def mutes (T : Type) : CursorIter T :=
  CursorIter.new T MUTES_LIST none none

/-- `mutes_ids` (src/user/mod.rs:230-232): selector `None`, page-size
`None`. -/
def mutes_ids (T : Type) : CursorIter T :=
  CursorIter.new T MUTES_IDS none none

/-- `incoming_requests` (src/user/mod.rs:237-241): selector `None`, page-size
`None`. -/
def incoming_requests (T : Type) : CursorIter T :=
  CursorIter.new T FRIENDSHIPS_INCOMING none none

/-- `outgoing_requests` (src/user/mod.rs:244-248): selector `None`, page-size
`None`. -/
def outgoing_requests (T : Type) : CursorIter T :=
  CursorIter.new T FRIENDSHIPS_OUTGOING none none

/-- A non-empty buffer pops its front item: no fetch, script untouched. -/
lemma produce_next_pop {T E : Type} (it : CursorIter T) (x : T) (rest : List T)
    (script : List (Except E (Page T))) (hb : it.buffered_items = x :: rest) :
    produce_next it script = ⟨.item x, { it with buffered_items := rest }, script, []⟩ := by
  simp [produce_next, hb]

/-- In the `Done` state the call signals exhaustion: no fetch, no change. -/
lemma produce_next_done {T E : Type} (it : CursorIter T)
    (script : List (Except E (Page T)))
    (hb : it.buffered_items = []) (hs : it.started = true) (hc : it.current_cursor = 0) :
    produce_next it script = ⟨.exhausted, it, script, []⟩ := by
  simp [produce_next, hb, hs, hc]

/-- A failing fetch surfaces the error and leaves the state untouched. -/
lemma produce_next_err {T E : Type} (it : CursorIter T) (e : E)
    (s : List (Except E (Page T)))
    (hb : it.buffered_items = []) (hnd : (it.started && it.current_cursor == 0) = false) :
    produce_next it (.error e :: s) = ⟨.fetchErr e, it, s, [it.fetch_params]⟩ := by
  simp [produce_next, hb, hnd, fetch_loop]

/-- Entering the fetch phase: with a drained buffer outside `Done`, the call
is the fetch phase. -/
lemma produce_next_fetch {T E : Type} (it : CursorIter T)
    (script : List (Except E (Page T)))
    (hb : it.buffered_items = []) (hnd : (it.started && it.current_cursor == 0) = false) :
    produce_next it script = fetch_loop it script := by
  simp [produce_next, hb, hnd]

/-- A fetched non-empty page yields its first item, buffers the tail, and
advances the cursor. -/
lemma produce_next_page_cons {T E : Type} (it : CursorIter T)
    (x : T) (rest : List T) (pc nc : Int) (s : List (Except E (Page T)))
    (hb : it.buffered_items = []) (hnd : (it.started && it.current_cursor == 0) = false) :
    produce_next it (.ok ⟨x :: rest, pc, nc⟩ :: s) =
      ⟨.item x,
       { it with buffered_items := rest, current_cursor := nc, started := true },
       s, [it.fetch_params]⟩ := by
  rw [produce_next_fetch it _ hb hnd]
  simp [fetch_loop]

/-- A fetched empty page with `next_cursor == 0` marks `Done` and signals
exhaustion for that very call. -/
lemma produce_next_page_last {T E : Type} (it : CursorIter T)
    (pc : Int) (s : List (Except E (Page T)))
    (hb : it.buffered_items = []) (hnd : (it.started && it.current_cursor == 0) = false) :
    produce_next it (.ok ⟨[], pc, 0⟩ :: s) =
      ⟨.exhausted,
       { it with buffered_items := [], current_cursor := 0, started := true },
       s, [it.fetch_params]⟩ := by
  rw [produce_next_fetch it _ hb hnd]
  simp [fetch_loop]

/-- A fetched empty page with a non-zero `next_cursor` advances the cursor and
immediately fetches again within the same call. -/
lemma produce_next_page_skip {T E : Type} (it : CursorIter T)
    (pc nc : Int) (s : List (Except E (Page T)))
    (hb : it.buffered_items = []) (hnd : (it.started && it.current_cursor == 0) = false)
    (hc : (nc == 0) = false) :
    produce_next it (.ok ⟨[], pc, nc⟩ :: s) =
      ⟨(produce_next { it with buffered_items := [], current_cursor := nc,
                               started := true } s).out,
       (produce_next { it with buffered_items := [], current_cursor := nc,
                               started := true } s).state,
       (produce_next { it with buffered_items := [], current_cursor := nc,
                               started := true } s).rest,
       it.fetch_params ::
         (produce_next { it with buffered_items := [], current_cursor := nc,
                                 started := true } s).reqs⟩ := by
  rw [produce_next_fetch it _ hb hnd]
  rw [produce_next_fetch _ _ (by simp) (by simp [hc])]
  simp [fetch_loop, hc]

/-- From the `Done` state, any number of further calls yields only exhaustion
signals: the state, the script and the request log are untouched. -/
lemma collect_done {T E : Type} (k : Nat) : ∀ (it : CursorIter T)
    (script : List (Except E (Page T))),
    it.buffered_items = [] → it.started = true → it.current_cursor = 0 →
    collect it script k = ⟨List.replicate k Output.exhausted, it, script, []⟩ := by
  induction k with
  | zero => intro it script hb hs hc; simp [collect]
  | succ n ih =>
    intro it script hb hs hc
    rw [collect, produce_next_done it script hb hs hc]
    simp [ih it script hb hs hc, List.replicate_succ]

/-- Draining the buffer: with `b` buffered, `b.length` calls yield exactly the
buffered items, with no fetch and no script consumption. -/
lemma collect_drain {T E : Type} (b : List T) : ∀ (it : CursorIter T)
    (script : List (Except E (Page T))),
    it.buffered_items = b →
    collect it script b.length =
      ⟨b.map Output.item, { it with buffered_items := [] }, script, []⟩ := by
  induction b with
  | nil =>
    intro it script hb
    obtain ⟨l, a, ps, c, bi, st⟩ := it
    simp_all [collect]
  | cons x xs ih =>
    intro it script hb
    rw [List.length_cons, collect, produce_next_pop it x xs script hb]
    simp [ih { it with buffered_items := xs } script rfl]

/-- Driving the machine `m + n` calls is driving it `m` calls and then `n`
more from where it left off; outcomes and requests concatenate. -/
lemma collect_add {T E : Type} (m : Nat) : ∀ (it : CursorIter T)
    (script : List (Except E (Page T))) (n : Nat),
    collect it script (m + n) =
      ⟨(collect it script m).outs ++
         (collect (collect it script m).state (collect it script m).rest n).outs,
       (collect (collect it script m).state (collect it script m).rest n).state,
       (collect (collect it script m).state (collect it script m).rest n).rest,
       (collect it script m).reqs ++
         (collect (collect it script m).state (collect it script m).rest n).reqs⟩ := by
  induction m with
  | zero =>
    intro it script n
    simp [collect, Nat.zero_add]
  | succ m ih =>
    intro it script n
    have hstep : m + 1 + n = (m + n) + 1 := by omega
    rw [hstep, collect, collect]
    simp [ih, List.append_assoc]

/-- A leading empty page with a non-zero cursor is transparent to a whole run:
the run behaves as if started past it, with one extra request logged. -/
lemma collect_skip {T E : Type} (it : CursorIter T) (pc nc : Int)
    (s : List (Except E (Page T))) (m : Nat)
    (hb : it.buffered_items = []) (hnd : (it.started && it.current_cursor == 0) = false)
    (hc : (nc == 0) = false) :
    collect it (.ok ⟨[], pc, nc⟩ :: s) (m + 1) =
      ⟨(collect { it with buffered_items := [], current_cursor := nc,
                          started := true } s (m + 1)).outs,
       (collect { it with buffered_items := [], current_cursor := nc,
                          started := true } s (m + 1)).state,
       (collect { it with buffered_items := [], current_cursor := nc,
                          started := true } s (m + 1)).rest,
       it.fetch_params ::
         (collect { it with buffered_items := [], current_cursor := nc,
                            started := true } s (m + 1)).reqs⟩ := by
  conv_lhs => rw [collect]
  conv_rhs => rw [collect]
  rw [produce_next_page_skip it pc nc s hb hnd hc]
  simp

/-- The request parameter maps a complete traversal issues, one per page: the
first from the given state, each later one from the state the previous page's
`next_cursor` leaves behind. -/
def traversalReqs {T : Type} (it : CursorIter T) : List (Page T) → List Params
  | [] => []
  | p :: ps =>
    it.fetch_params ::
      traversalReqs
        { it with buffered_items := [], current_cursor := p.next_cursor,
                  started := true } ps

/-- A complete traversal issues exactly one request per page. -/
lemma traversalReqs_length {T : Type} (pages : List (Page T)) :
    ∀ it : CursorIter T, (traversalReqs it pages).length = pages.length := by
  induction pages with
  | nil => intro it; simp [traversalReqs]
  | cons p ps ih => intro it; simp [traversalReqs, ih]

/-- Complete traversal: from any fetch-ready state, a well-formed script of
pages is consumed whole; the machine emits every page's items in server
order, then exhaustion signals for every remaining call; exactly one request
per page is issued and the machine ends in the `Done` state. -/
lemma collect_wf {T E : Type} : ∀ (pages : List (Page T)) (it : CursorIter T) (k : Nat),
    wfPages pages = true →
    it.buffered_items = [] →
    (it.started && it.current_cursor == 0) = false →
    collect it (pages.map (Except.ok : Page T → Except E (Page T)))
        ((pagesItems pages).length + 1 + k) =
      ⟨(pagesItems pages).map Output.item ++ List.replicate (k + 1) Output.exhausted,
       { it with buffered_items := [], current_cursor := 0, started := true },
       [], traversalReqs it pages⟩ := by
  intro pages
  induction pages with
  | nil => intro it k hwf; simp [wfPages] at hwf
  | cons p ps ih =>
    obtain ⟨pitems, ppc, pnc⟩ := p
    intro it k hwf hb hnd
    cases ps with
    | nil =>
      have hc : pnc = 0 := by simpa [wfPages] using hwf
      subst hc
      cases pitems with
      | nil =>
        have hsteps : (pagesItems [(⟨[], ppc, 0⟩ : Page T)]).length + 1 + k = k + 1 := by
          simp [pagesItems]; omega
        rw [List.map_cons, List.map_nil, hsteps, collect,
          produce_next_page_last it ppc _ hb hnd]
        rw [collect_done k _ _ rfl rfl rfl]
        simp [pagesItems, traversalReqs, List.replicate_succ]
      | cons x rest =>
        have hsteps : (pagesItems [(⟨x :: rest, ppc, 0⟩ : Page T)]).length + 1 + k =
            (rest.length + (k + 1)) + 1 := by
          simp [pagesItems]; omega
        rw [List.map_cons, List.map_nil, hsteps, collect,
          produce_next_page_cons it x rest ppc 0 _ hb hnd]
        rw [collect_add rest.length _ _ (k + 1)]
        rw [collect_drain rest _ _ rfl]
        rw [collect_done (k + 1) _ _ rfl rfl rfl]
        simp [pagesItems, traversalReqs]
    | cons q ps' =>
      have hnz : (pnc == 0) = false := by
        have := hwf
        simp [wfPages] at this
        simpa using this.1
      have hwf' : wfPages (q :: ps') = true := by
        have := hwf
        simp [wfPages] at this
        exact this.2
      cases pitems with
      | nil =>
        have hsteps : (pagesItems ((⟨[], ppc, pnc⟩ : Page T) :: q :: ps')).length + 1 + k =
            ((pagesItems (q :: ps')).length + k) + 1 := by
          simp [pagesItems]; omega
        rw [List.map_cons, hsteps, collect_skip it ppc pnc _ _ hb hnd hnz]
        have hsteps' : (pagesItems (q :: ps')).length + k + 1 =
            (pagesItems (q :: ps')).length + 1 + k := by omega
        rw [hsteps']
        rw [ih { it with buffered_items := [], current_cursor := pnc, started := true }
          k hwf' rfl (by simp [hnz])]
        simp [pagesItems, traversalReqs]
      | cons x rest =>
        have hsteps : (pagesItems ((⟨x :: rest, ppc, pnc⟩ : Page T) :: q :: ps')).length + 1 + k =
            (rest.length + ((pagesItems (q :: ps')).length + 1 + k)) + 1 := by
          simp [pagesItems]; omega
        rw [List.map_cons, hsteps, collect, produce_next_page_cons it x rest ppc pnc _ hb hnd]
        rw [collect_add rest.length _ _ ((pagesItems (q :: ps')).length + 1 + k)]
        rw [collect_drain rest _ _ rfl]
        rw [ih { it with buffered_items := [], current_cursor := pnc, started := true }
          k hwf' rfl (by simp [hnz])]
        simp [pagesItems, traversalReqs]

/-- Whenever the fetch phase consumes at least one scripted response, the
first request it issues is built from the entering state. -/
lemma fetch_loop_head_req {T E : Type} (it : CursorIter T)
    (o : Except E (Page T)) (s : List (Except E (Page T))) :
    (fetch_loop it (o :: s)).reqs.head? = some it.fetch_params := by
  cases o with
  | error e => simp [fetch_loop]
  | ok p =>
    obtain ⟨pitems, pc, nc⟩ := p
    cases pitems with
    | cons x rest => simp [fetch_loop]
    | nil =>
      cases hnc : nc == 0 <;> simp [fetch_loop, hnc]

/-- C1: for every sequence of successful page fetches whose `next_cursor`
eventually reaches 0, repeated `produce_next()` calls on a fresh
`CursorIter` yield exactly the concatenation of all pages' items in server
order, then signal exhaustion permanently: every one of the `k + 1` calls
past the items returns the exhaustion signal, the machine ends in the `Done`
state, and exactly one fetch per page is ever issued (`traversalReqs` has one
entry per page), so no call after `Done` ever fetches again. -/
theorem cursorIter_traversal_exhaustion {T E : Type} (pages : List (Page T))
    (link : String) (acct : Option UserID) (psize : Option Nat) (k : Nat)
    (hwf : wfPages pages = true) :
    collect (CursorIter.new T link acct psize)
        (pages.map (Except.ok : Page T → Except E (Page T)))
        ((pagesItems pages).length + 1 + k) =
      ⟨(pagesItems pages).map Output.item ++ List.replicate (k + 1) Output.exhausted,
       { CursorIter.new T link acct psize with
           buffered_items := [], current_cursor := 0, started := true },
       [], traversalReqs (CursorIter.new T link acct psize) pages⟩ ∧
    ({ CursorIter.new T link acct psize with
         buffered_items := [], current_cursor := 0, started := true } :
       CursorIter T).isDone = true ∧
    (traversalReqs (CursorIter.new T link acct psize) pages).length = pages.length := by
  refine ⟨collect_wf pages (CursorIter.new T link acct psize) k hwf rfl rfl, ?_, ?_⟩
  · simp [CursorIter.isDone, CursorIter.new]
  · exact traversalReqs_length pages _

/-- C1 witness: a concrete two-page traversal, run to exhaustion plus one
more call. -/
theorem cursorIter_traversal_exhaustion_witness :
    collect (CursorIter.new String FRIENDS_LIST none (some 2))
        (([⟨["a"], 0, 5⟩, ⟨["b", "c"], 1, 0⟩] : List (Page String)).map
          (Except.ok : Page String → Except Unit (Page String)))
        ((pagesItems ([⟨["a"], 0, 5⟩, ⟨["b", "c"], 1, 0⟩] : List (Page String))).length + 1 + 1) =
      ⟨(pagesItems ([⟨["a"], 0, 5⟩, ⟨["b", "c"], 1, 0⟩] : List (Page String))).map Output.item ++
         List.replicate (1 + 1) Output.exhausted,
       { CursorIter.new String FRIENDS_LIST none (some 2) with
           buffered_items := [], current_cursor := 0, started := true },
       [], traversalReqs (CursorIter.new String FRIENDS_LIST none (some 2))
             ([⟨["a"], 0, 5⟩, ⟨["b", "c"], 1, 0⟩] : List (Page String))⟩ ∧
    ({ CursorIter.new String FRIENDS_LIST none (some 2) with
         buffered_items := [], current_cursor := 0, started := true } :
       CursorIter String).isDone = true ∧
    (traversalReqs (CursorIter.new String FRIENDS_LIST none (some 2))
        ([⟨["a"], 0, 5⟩, ⟨["b", "c"], 1, 0⟩] : List (Page String))).length =
      ([⟨["a"], 0, 5⟩, ⟨["b", "c"], 1, 0⟩] : List (Page String)).length :=
  @cursorIter_traversal_exhaustion String Unit
    [⟨["a"], 0, 5⟩, ⟨["b", "c"], 1, 0⟩] FRIENDS_LIST none (some 2) 1 (by decide)

/-- C2: a failing fetch surfaces the error for that single `produce_next()`
call and leaves the whole iterator state — cursor, buffer, flags — exactly as
it was; the next call therefore runs against the very same state, issues an
equivalent fetch request (the identical parameter map, hence the same cursor
and page size) whenever the retried fetch happens, and behaves exactly as the
first call would have, had its fetch succeeded. -/
theorem produce_next_failure_idempotent_retry {T E : Type} (it : CursorIter T)
    (e : E) (tail : List (Except E (Page T)))
    (hb : it.buffered_items = [])
    (hnd : (it.started && it.current_cursor == 0) = false) :
    produce_next it (.error e :: tail) = ⟨.fetchErr e, it, tail, [it.fetch_params]⟩ ∧
    produce_next (produce_next it (.error e :: tail)).state
        (produce_next it (.error e :: tail)).rest = produce_next it tail ∧
    (∀ (o : Except E (Page T)) (s : List (Except E (Page T))), tail = o :: s →
      (produce_next it tail).reqs.head? = some it.fetch_params) := by
  have h1 := produce_next_err it e tail hb hnd
  refine ⟨h1, by rw [h1], ?_⟩
  intro o s hts
  subst hts
  rw [produce_next_fetch it _ hb hnd]
  exact fetch_loop_head_req it o s

/-- C2 witness: a failed fetch on a fresh friends listing, retried against
the page the server would have served. -/
theorem produce_next_failure_idempotent_retry_witness :
    produce_next (friends_of String (.ScreenName "rustlang"))
        (.error () :: [Except.ok (⟨["x"], 0, 0⟩ : Page String)]) =
      ⟨.fetchErr (), friends_of String (.ScreenName "rustlang"),
       [Except.ok ⟨["x"], 0, 0⟩],
       [(friends_of String (.ScreenName "rustlang")).fetch_params]⟩ ∧
    produce_next
        (produce_next (friends_of String (.ScreenName "rustlang"))
          (.error () :: [Except.ok (⟨["x"], 0, 0⟩ : Page String)])).state
        (produce_next (friends_of String (.ScreenName "rustlang"))
          (.error () :: [Except.ok (⟨["x"], 0, 0⟩ : Page String)])).rest =
      produce_next (friends_of String (.ScreenName "rustlang"))
        [Except.ok ⟨["x"], 0, 0⟩] ∧
    (∀ (o : Except Unit (Page String)) (s : List (Except Unit (Page String))),
      ([Except.ok (⟨["x"], 0, 0⟩ : Page String)] : List (Except Unit (Page String))) = o :: s →
      (produce_next (friends_of String (.ScreenName "rustlang"))
          ([Except.ok (⟨["x"], 0, 0⟩ : Page String)] :
            List (Except Unit (Page String)))).reqs.head? =
        some (friends_of String (.ScreenName "rustlang")).fetch_params) :=
  produce_next_failure_idempotent_retry
    (friends_of String (.ScreenName "rustlang")) ()
    [Except.ok ⟨["x"], 0, 0⟩] rfl rfl

/-- C3: `with_page_size(n)` sets the page-size hint while no fetch has been
issued (`started = false`) and fails with a configuration error once
`started = true`, on both the cursor iterator and the search iterator.  The
operation consults no server script at all (its type takes none), so no
network access is involved, and in the failure case no updated iterator is
produced — the caller keeps the unchanged one. -/
theorem with_page_size_before_start_only {T : Type} (it : CursorIter T)
    (st : UserSearch T) (n : Nat) :
    (it.started = false → it.with_page_size n = .ok { it with page_size := some n }) ∧
    (it.started = true → it.with_page_size n = .error .configuration_rejected) ∧
    (st.started = false → st.with_page_size n = .ok { st with page_size := n }) ∧
    (st.started = true → st.with_page_size n = .error .configuration_rejected) := by
  refine ⟨?_, ?_, ?_, ?_⟩ <;> intro h <;>
    simp [CursorIter.with_page_size, UserSearch.with_page_size, h]

/-- C3 witness: the hint is set on a fresh blocks iterator and a fresh search
iterator, and rejected on a started copy of each. -/
theorem with_page_size_before_start_only_witness :
    ((blocks String).with_page_size 7 =
        .ok { blocks String with page_size := some 7 } ∧
      ({ blocks String with started := true } : CursorIter String).with_page_size 7 =
        .error .configuration_rejected) ∧
    ((search String "rust").with_page_size 7 =
        .ok { search String "rust" with page_size := 7 } ∧
      ({ search String "rust" with started := true } : UserSearch String).with_page_size 7 =
        .error .configuration_rejected) :=
  ⟨⟨(with_page_size_before_start_only (blocks String) (search String "rust") 7).1 rfl,
    (with_page_size_before_start_only ({ blocks String with started := true })
      (search String "rust") 7).2.1 rfl⟩,
   ⟨(with_page_size_before_start_only (blocks String) (search String "rust") 7).2.2.1 rfl,
    (with_page_size_before_start_only (blocks String)
      ({ search String "rust" with started := true }) 7).2.2.2 rfl⟩⟩

/-- C4: a fetch returning an empty item batch with a non-zero `next_cursor`
neither terminates the traversal nor surfaces an empty result: within the
same `produce_next()` call the cursor is updated and another fetch is issued
immediately (the call's outcome is whatever the continued traversal
produces, with the extra request logged in front).  Concretely, with page
size 2 and the three pages `(["a","b"], cursor 10)`, `([], cursor 20)`,
`(["c"], cursor 0)`, the iterator yields `"a"`, `"b"`, `"c"`, then
exhaustion, having issued exactly 3 fetches whose parameter maps carry no
cursor, cursor 10 and cursor 20. -/
theorem empty_page_nonzero_cursor_continues {T E : Type} (it : CursorIter T)
    (p : Page T) (s : List (Except E (Page T)))
    (hb : it.buffered_items = [])
    (hnd : (it.started && it.current_cursor == 0) = false)
    (hi : p.items = []) (hc : (p.next_cursor == 0) = false) :
    (produce_next it (.ok p :: s) =
      ⟨(produce_next { it with buffered_items := [], current_cursor := p.next_cursor,
                               started := true } s).out,
       (produce_next { it with buffered_items := [], current_cursor := p.next_cursor,
                               started := true } s).state,
       (produce_next { it with buffered_items := [], current_cursor := p.next_cursor,
                               started := true } s).rest,
       it.fetch_params ::
         (produce_next { it with buffered_items := [], current_cursor := p.next_cursor,
                                 started := true } s).reqs⟩) ∧
    collect (CursorIter.new String FRIENDS_LIST (some (.ScreenName "rustlang")) (some 2))
        ([.ok ⟨["a", "b"], 0, 10⟩, .ok ⟨[], 0, 20⟩, .ok ⟨["c"], 0, 0⟩] :
          List (Except Unit (Page String))) 5 =
      ⟨[.item "a", .item "b", .item "c", .exhausted, .exhausted],
       { CursorIter.new String FRIENDS_LIST (some (.ScreenName "rustlang")) (some 2) with
           buffered_items := [], current_cursor := 0, started := true },
       [],
       [[("screen_name", "rustlang"), ("count", "2")],
        [("screen_name", "rustlang"), ("count", "2"), ("cursor", "10")],
        [("screen_name", "rustlang"), ("count", "2"), ("cursor", "20")]]⟩ := by
  constructor
  · obtain ⟨pitems, ppc, pnc⟩ := p
    simp only [Page.items] at hi
    simp only [Page.next_cursor] at hc
    subst hi
    simp only [Page.next_cursor]
    exact produce_next_page_skip it ppc pnc s hb hnd hc
  · decide

/-- C4 witness: the transparent-continuation clause instantiated at a fresh
mutes iterator and a concrete empty page with cursor 7. -/
theorem empty_page_nonzero_cursor_continues_witness :
    (produce_next (mutes String)
        ([.ok ⟨[], 0, 7⟩, .ok ⟨["m"], 0, 0⟩] : List (Except Unit (Page String))) =
      ⟨(produce_next (⟨MUTES_LIST, none, none, 7, [], true⟩ : CursorIter String)
          ([.ok ⟨["m"], 0, 0⟩] : List (Except Unit (Page String)))).out,
       (produce_next (⟨MUTES_LIST, none, none, 7, [], true⟩ : CursorIter String)
          ([.ok ⟨["m"], 0, 0⟩] : List (Except Unit (Page String)))).state,
       (produce_next (⟨MUTES_LIST, none, none, 7, [], true⟩ : CursorIter String)
          ([.ok ⟨["m"], 0, 0⟩] : List (Except Unit (Page String)))).rest,
       (mutes String).fetch_params ::
         (produce_next (⟨MUTES_LIST, none, none, 7, [], true⟩ : CursorIter String)
            ([.ok ⟨["m"], 0, 0⟩] : List (Except Unit (Page String)))).reqs⟩) ∧
    collect (CursorIter.new String FRIENDS_LIST (some (.ScreenName "rustlang")) (some 2))
        ([.ok ⟨["a", "b"], 0, 10⟩, .ok ⟨[], 0, 20⟩, .ok ⟨["c"], 0, 0⟩] :
          List (Except Unit (Page String))) 5 =
      ⟨[.item "a", .item "b", .item "c", .exhausted, .exhausted],
       { CursorIter.new String FRIENDS_LIST (some (.ScreenName "rustlang")) (some 2) with
           buffered_items := [], current_cursor := 0, started := true },
       [],
       [[("screen_name", "rustlang"), ("count", "2")],
        [("screen_name", "rustlang"), ("count", "2"), ("cursor", "10")],
        [("screen_name", "rustlang"), ("count", "2"), ("cursor", "20")]]⟩ :=
  empty_page_nonzero_cursor_continues (mutes String) ⟨[], 0, 7⟩
    ([.ok ⟨["m"], 0, 0⟩] : List (Except Unit (Page String))) rfl rfl rfl (by decide)

/-- C5: a fetch returning an empty item batch together with `next_cursor = 0`
marks the iterator `Done`, and the `produce_next()` call that triggered the
fetch produces no item — only the exhaustion signal. -/
theorem empty_page_zero_cursor_terminates {T E : Type} (it : CursorIter T)
    (p : Page T) (s : List (Except E (Page T)))
    (hb : it.buffered_items = [])
    (hnd : (it.started && it.current_cursor == 0) = false)
    (hi : p.items = []) (hc : p.next_cursor = 0) :
    produce_next it (.ok p :: s) =
      ⟨.exhausted,
       { it with buffered_items := [], current_cursor := 0, started := true },
       s, [it.fetch_params]⟩ ∧
    (produce_next it (.ok p :: s)).state.isDone = true := by
  obtain ⟨pitems, ppc, pnc⟩ := p
  simp only [Page.items] at hi
  simp only [Page.next_cursor] at hc
  subst hi
  subst hc
  have h := produce_next_page_last it ppc s hb hnd
  exact ⟨h, by rw [h]; simp [CursorIter.isDone]⟩

/-- C5 witness: a fresh blocks-IDs iterator served a single empty page with
cursor 0. -/
theorem empty_page_zero_cursor_terminates_witness :
    produce_next (blocks_ids Int) ([.ok ⟨[], 0, 0⟩] : List (Except Unit (Page Int))) =
      ⟨.exhausted,
       { blocks_ids Int with buffered_items := [], current_cursor := 0, started := true },
       [], [(blocks_ids Int).fetch_params]⟩ ∧
    (produce_next (blocks_ids Int)
        ([.ok ⟨[], 0, 0⟩] : List (Except Unit (Page Int)))).state.isDone = true :=
  empty_page_zero_cursor_terminates (blocks_ids Int) ⟨[], 0, 0⟩ [] rfl rfl rfl rfl

/-- C6: the conversion of an account selector into request parameters sends
exactly one of the ID parameter or the screen-name parameter, never both: a
screen-name selector adds only `screen_name` and a numeric selector only
`user_id` (`show`), and for `relation` each endpoint of the pair gets exactly
one parameter, `source_id`/`source_screen_name` for the source and
`target_id`/`target_screen_name` for the target. -/
theorem selector_params_mutually_exclusive (id tid : Int) (nm tnm : String) :
    show_params (.ID id) = [("user_id", toString id)] ∧
    show_params (.ScreenName nm) = [("screen_name", nm)] ∧
    hasParam (show_params (.ID id)) "screen_name" = false ∧
    hasParam (show_params (.ScreenName nm)) "user_id" = false ∧
    relation_params (.ID id) (.ID tid) =
      [("source_id", toString id), ("target_id", toString tid)] ∧
    relation_params (.ID id) (.ScreenName tnm) =
      [("source_id", toString id), ("target_screen_name", tnm)] ∧
    relation_params (.ScreenName nm) (.ID tid) =
      [("source_screen_name", nm), ("target_id", toString tid)] ∧
    relation_params (.ScreenName nm) (.ScreenName tnm) =
      [("source_screen_name", nm), ("target_screen_name", tnm)] := by
  refine ⟨rfl, rfl, ?_, ?_, rfl, rfl, rfl, rfl⟩ <;>
    simp [show_params, add_name_param, add_param, hasParam]

/-- A fetch from a state with no account selector builds a parameter map that
carries neither `user_id` nor `screen_name`. -/
lemma fetch_params_no_selector {T : Type} (it : CursorIter T) (h : it.acct = none) :
    hasParam it.fetch_params "user_id" = false ∧
    hasParam it.fetch_params "screen_name" = false := by
  obtain ⟨l, a, pz, c, b, st⟩ := it
  simp only [CursorIter.acct] at h
  subst h
  cases pz <;> cases st <;>
    simp [CursorIter.fetch_params, hasParam, add_param]

/-- The fetch phase never changes the account selector. -/
lemma fetch_loop_state_acct {T E : Type} : ∀ (script : List (Except E (Page T)))
    (it : CursorIter T), (fetch_loop it script).state.acct = it.acct := by
  intro script
  induction script with
  | nil => intro it; simp [fetch_loop]
  | cons o s ih =>
    intro it
    cases o with
    | error e => simp [fetch_loop]
    | ok p =>
      obtain ⟨pitems, pc, nc⟩ := p
      cases pitems with
      | cons x rest => simp [fetch_loop]
      | nil =>
        cases hnc : nc == 0 <;> simp [fetch_loop, hnc, ih]

/-- Every request the fetch phase issues from a selector-free state carries
neither `user_id` nor `screen_name`. -/
lemma fetch_loop_reqs_no_selector {T E : Type} : ∀ (script : List (Except E (Page T)))
    (it : CursorIter T), it.acct = none →
    ∀ ps ∈ (fetch_loop it script).reqs,
      hasParam ps "user_id" = false ∧ hasParam ps "screen_name" = false := by
  intro script
  induction script with
  | nil => intro it h ps hmem; simp [fetch_loop] at hmem
  | cons o s ih =>
    intro it h ps hmem
    cases o with
    | error e =>
      simp [fetch_loop] at hmem
      subst hmem
      exact fetch_params_no_selector it h
    | ok p =>
      obtain ⟨pitems, pc, nc⟩ := p
      cases pitems with
      | cons x rest =>
        simp [fetch_loop] at hmem
        subst hmem
        exact fetch_params_no_selector it h
      | nil =>
        cases hnc : nc == 0 with
        | true =>
          simp [fetch_loop, hnc] at hmem
          subst hmem
          exact fetch_params_no_selector it h
        | false =>
          simp [fetch_loop, hnc] at hmem
          cases hmem with
          | inl h1 =>
            subst h1
            exact fetch_params_no_selector it h
          | inr h2 =>
            exact ih _ (by simp [h]) ps h2

/-- One `produce_next()` call never changes the account selector. -/
lemma produce_next_state_acct {T E : Type} (it : CursorIter T)
    (script : List (Except E (Page T))) :
    (produce_next it script).state.acct = it.acct := by
  unfold produce_next
  cases hb : it.buffered_items with
  | cons x rest => simp
  | nil =>
    cases hd : it.started && it.current_cursor == 0 <;>
      simp [fetch_loop_state_acct]

/-- Every request one `produce_next()` call issues from a selector-free state
carries neither `user_id` nor `screen_name`. -/
lemma produce_next_reqs_no_selector {T E : Type} (it : CursorIter T)
    (script : List (Except E (Page T))) (h : it.acct = none) :
    ∀ ps ∈ (produce_next it script).reqs,
      hasParam ps "user_id" = false ∧ hasParam ps "screen_name" = false := by
  intro ps hmem
  unfold produce_next at hmem
  cases hb : it.buffered_items with
  | cons x rest => simp [hb] at hmem
  | nil =>
    rw [hb] at hmem
    cases hd : it.started && it.current_cursor == 0 with
    | true => simp [hd] at hmem
    | false =>
      simp [hd] at hmem
      exact fetch_loop_reqs_no_selector script it h ps hmem

/-- Every request an arbitrarily long run issues from a selector-free state
carries neither `user_id` nor `screen_name`. -/
lemma collect_reqs_no_selector {T E : Type} : ∀ (n : Nat) (it : CursorIter T)
    (script : List (Except E (Page T))), it.acct = none →
    ∀ ps ∈ (collect it script n).reqs,
      hasParam ps "user_id" = false ∧ hasParam ps "screen_name" = false := by
  intro n
  induction n with
  | zero => intro it script h ps hmem; simp [collect] at hmem
  | succ n ih =>
    intro it script h ps hmem
    rw [collect] at hmem
    simp only [List.mem_append] at hmem
    cases hmem with
    | inl h1 => exact produce_next_reqs_no_selector it script h ps h1
    | inr h2 =>
      exact ih _ _ (by rw [produce_next_state_acct, h]) ps h2

/-- C7: every self-referential listing constructor — `blocks`, `blocks_ids`,
`mutes`, `mutes_ids`, `incoming_requests`, `outgoing_requests` — creates its
iterator with account selector `None`, and during any traversal from a
selector-free iterator no issued request ever carries an account-selector
parameter (`user_id` or `screen_name`). -/
theorem self_listings_omit_selector {T E : Type} :
    (blocks T).acct = none ∧ (blocks_ids T).acct = none ∧
    (mutes T).acct = none ∧ (mutes_ids T).acct = none ∧
    (incoming_requests T).acct = none ∧ (outgoing_requests T).acct = none ∧
    (∀ (it : CursorIter T) (script : List (Except E (Page T))) (n : Nat)
       (ps : Params), it.acct = none → ps ∈ (collect it script n).reqs →
       hasParam ps "user_id" = false ∧ hasParam ps "screen_name" = false) :=
  ⟨rfl, rfl, rfl, rfl, rfl, rfl,
   fun it script n ps h hmem => collect_reqs_no_selector n it script h ps hmem⟩

/-- C7 witness: one traversal step of a fresh blocks iterator issues a single
request, and it carries no selector parameter. -/
theorem self_listings_omit_selector_witness :
    (blocks String).acct = none ∧
    ([] : Params) ∈ (collect (blocks String)
      ([.ok ⟨[], 0, 0⟩] : List (Except Unit (Page String))) 1).reqs ∧
    hasParam ([] : Params) "user_id" = false ∧
    hasParam ([] : Params) "screen_name" = false := by
  have h := (@self_listings_omit_selector String Unit).2.2.2.2.2.2
    (blocks String) ([.ok ⟨[], 0, 0⟩] : List (Except Unit (Page String))) 1
    ([] : Params) rfl (by decide)
  exact ⟨rfl, by decide, h.1, h.2⟩

/-- C8: a fresh search iterator starts at `page_number = 1`; a fetch that
returns a non-empty batch advances `page_number` by exactly 1 and leaves the
machine non-terminal; a fetch that returns zero items makes the machine
terminal (page number untouched) and from then on every call signals
exhaustion without fetching; buffer pops and failed fetches change neither
the page number nor terminality.  No cursor appears anywhere in the
termination condition. -/
theorem search_pages_by_number {T E : Type} (q : String) (st : UserSearch T)
    (x : T) (batch rest : List T) (s : List (Except E (List T))) (e : E)
    (hb : st.buffered_items = []) (ht : st.isTerminal = false) :
    (search T q).page_number = 1 ∧
    (batch = x :: rest →
      search_next st (.ok batch :: s) =
        ⟨.item x,
         { st with buffered_items := rest, page_number := st.page_number + 1,
                   started := true, last_page_had_results := true },
         s, [(st.page_number, st.page_size)]⟩ ∧
      ({ st with buffered_items := rest, page_number := st.page_number + 1,
                 started := true, last_page_had_results := true } :
         UserSearch T).isTerminal = false) ∧
    (search_next st (.ok [] :: s) =
      ⟨.exhausted, { st with started := true, last_page_had_results := false },
       s, [(st.page_number, st.page_size)]⟩ ∧
     ({ st with started := true, last_page_had_results := false } :
        UserSearch T).isTerminal = true) ∧
    (∀ (st2 : UserSearch T) (s2 : List (Except E (List T))),
      st2.isTerminal = true → st2.buffered_items = [] →
      search_next st2 s2 = ⟨.exhausted, st2, s2, []⟩) ∧
    (∀ (st3 : UserSearch T) (s3 : List (Except E (List T))) (y : T) (ys : List T),
      st3.buffered_items = y :: ys →
      search_next st3 s3 = ⟨.item y, { st3 with buffered_items := ys }, s3, []⟩) ∧
    search_next st (.error e :: s) =
      ⟨.fetchErr e, st, s, [(st.page_number, st.page_size)]⟩ := by
  have ht' : (st.started && !st.last_page_had_results) = false := by
    simpa [UserSearch.isTerminal] using ht
  refine ⟨rfl, ?_, ?_, ?_, ?_, ?_⟩
  · intro hbatch
    subst hbatch
    exact ⟨by simp [search_next, hb, ht'], by simp [UserSearch.isTerminal]⟩
  · exact ⟨by simp [search_next, hb, ht'], by simp [UserSearch.isTerminal]⟩
  · intro st2 s2 ht2 hb2
    have ht2' : (st2.started && !st2.last_page_had_results) = true := by
      simpa [UserSearch.isTerminal] using ht2
    simp [search_next, hb2, ht2']
  · intro st3 s3 y ys hb3
    simp [search_next, hb3]
  · simp [search_next, hb, ht']

/-- C8 witness: a fresh search for "rust" served a one-item page and then an
empty page. -/
theorem search_pages_by_number_witness :
    (search String "rust").page_number = 1 ∧
    ((["r"] : List String) = "r" :: [] →
      search_next (search String "rust")
          ([.ok ["r"]] : List (Except Unit (List String))) =
        ⟨.item "r", (⟨"rust", 2, 10, [], true, true⟩ : UserSearch String),
         [], [(1, 10)]⟩ ∧
      ((⟨"rust", 2, 10, [], true, true⟩ : UserSearch String)).isTerminal = false) ∧
    (search_next (search String "rust")
        ([.ok []] : List (Except Unit (List String))) =
      ⟨.exhausted, (⟨"rust", 1, 10, [], false, true⟩ : UserSearch String),
       [], [(1, 10)]⟩ ∧
     ((⟨"rust", 1, 10, [], false, true⟩ : UserSearch String)).isTerminal = true) ∧
    (∀ (st2 : UserSearch String) (s2 : List (Except Unit (List String))),
      st2.isTerminal = true → st2.buffered_items = [] →
      search_next st2 s2 = ⟨.exhausted, st2, s2, []⟩) ∧
    (∀ (st3 : UserSearch String) (s3 : List (Except Unit (List String)))
       (y : String) (ys : List String), st3.buffered_items = y :: ys →
      search_next st3 s3 = ⟨.item y, { st3 with buffered_items := ys }, s3, []⟩) ∧
    search_next (search String "rust")
        ([.error ()] : List (Except Unit (List String))) =
      ⟨.fetchErr (), search String "rust", [], [(1, 10)]⟩ :=
  search_pages_by_number "rust" (search String "rust") "r" ["r"] []
    ([] : List (Except Unit (List String))) () rfl rfl

/-- C9: the constructors fix the initial page-size hints per listing kind:
`friends_of` and `followers_of` use `Some(20)`, `friends_ids` and
`followers_ids` use `Some(500)`, and the six self-referential listings use
`None` (no hint sent unless the caller sets one). -/
theorem constructor_page_size_hints {T : Type} (acct : UserID) :
    (friends_of T acct).page_size = some 20 ∧
    (followers_of T acct).page_size = some 20 ∧
    (friends_ids T acct).page_size = some 500 ∧
    (followers_ids T acct).page_size = some 500 ∧
    (blocks T).page_size = none ∧
    (blocks_ids T).page_size = none ∧
    (mutes T).page_size = none ∧
    (mutes_ids T).page_size = none ∧
    (incoming_requests T).page_size = none ∧
    (outgoing_requests T).page_size = none :=
  ⟨rfl, rfl, rfl, rfl, rfl, rfl, rfl, rfl, rfl, rfl⟩

/-- C10: `lookup` and `relation_lookup` partition the input into a
comma-joined `user_id` parameter (the numeric IDs, in input order) and a
comma-joined `screen_name` parameter (the screen names, in input order), and
always send both parameters — even for an empty partition the parameter is
present with the empty-string value — unlike the single-account `show`,
which sends exactly one of the two. -/
theorem lookup_sends_both_partitions (accts : List UserID) (acct : UserID) :
    lookup_params accts =
      [("user_id", String.intercalate "," (idStrings accts)),
       ("screen_name", String.intercalate "," (nameStrings accts))] ∧
    relation_lookup_params accts = lookup_params accts ∧
    hasParam (lookup_params accts) "user_id" = true ∧
    hasParam (lookup_params accts) "screen_name" = true ∧
    getParam (lookup_params accts) "user_id" =
      some (String.intercalate "," (idStrings accts)) ∧
    getParam (lookup_params accts) "screen_name" =
      some (String.intercalate "," (nameStrings accts)) ∧
    lookup_params [.ScreenName "rustlang"] =
      [("user_id", ""), ("screen_name", "rustlang")] ∧
    lookup_params [.ID 12] = [("user_id", "12"), ("screen_name", "")] ∧
    (hasParam (show_params acct) "user_id" &&
      hasParam (show_params acct) "screen_name") = false := by
  refine ⟨rfl, rfl, ?_, ?_, ?_, ?_, by decide, by decide, ?_⟩
  · simp [lookup_params, add_param, hasParam]
  · simp [lookup_params, add_param, hasParam]
  · simp [lookup_params, add_param, getParam]
  · simp [lookup_params, add_param, getParam]
  · cases acct <;> simp [show_params, add_name_param, add_param, hasParam]

end TwitterRs
